import Mathlib

/-!
# Dot Grid Generator — verified model

A shallow embedding of the core of `dot-grid-app.py`: CSV ingestion
(`load_csv`), canvas sizing (`_grid_dimensions`), the preview drawing loop
(`draw_grid`), and the two file exporters (`_export_raster`, `_export_svg`),
together with theorems checking the specification's claims about them.

Python floats are modelled as exact rationals (`ℚ`); Python's `int()`
conversion (truncation toward zero) is `pyInt`.  Colors are the hex strings
the program uses.  Tk/file-dialog plumbing is out of scope; the embedded
functions take the grid data and style values as explicit arguments.
-/

namespace DotGrid

/-- Colors are 24-bit RGB hex strings such as `"#00ff55"`, exactly as the
program stores them. -/
abbrev Color := String

/-- Python `int(x)` on an exact value: truncation toward zero.
`Int.tdiv` is T-division, which truncates toward zero like Python `int()`. -/
def pyInt (q : ℚ) : ℤ := Int.tdiv q.num q.den

/-- Python `str.strip()`: remove leading and trailing whitespace characters. -/
def strip (s : String) : String :=
  String.mk (((s.data.dropWhile Char.isWhitespace).reverse.dropWhile
    Char.isWhitespace).reverse)

/-- The style state of the app: `self.dot_radius`, `self.spacing`,
`self.bg_color`, `self.inactive_color`, `self.active_color`. -/
structure StyleConfig where
  radius : ℚ
  spacing : ℚ
  bg_color : Color
  inactive_color : Color
  active_color : Color
deriving Repr, DecidableEq

/-- The app's initial style values (`__init__`): radius 6.0, spacing 18.0,
background `#111111`, inactive `#555555`, active `#00ff55`. -/
def defaultStyle : StyleConfig :=
  { radius := 6, spacing := 18, bg_color := "#111111",
    inactive_color := "#555555", active_color := "#00ff55" }

/-! ## GridModel: CSV ingestion (`load_csv`, lines 126–164) -/

/-- The one ingestion failure the app reports: "CSV file appears to be
empty." (shown when no non-blank rows survive). -/
inductive LoadError where
  | emptyInput
deriving Repr, DecidableEq

/-- The per-cell activation rule (lines 152–158):
`cell_str = cell.strip()`; the cell is active (`1`) iff `cell_str` is truthy
(non-empty) and `cell_str != "0"`. -/
def cell_active (cell : String) : Bool :=
  let cell_str := strip cell
  cell_str != "" && cell_str != "0"

/-- Line 140: `rows = [r for r in rows if any(cell.strip() for cell in r)]` —
keep a row iff some cell strips to a non-empty string. -/
def surviving_rows (raw : List (List String)) : List (List String) :=
  raw.filter fun r => r.any fun cell => strip cell != ""

/-- Line 145: `max_cols = max(len(r) for r in rows)`.  For a non-empty list
of natural numbers, Python's `max` agrees with a left fold of `max` from 0. -/
def max_cols (rows : List (List String)) : Nat :=
  rows.foldl (fun m r => max m r.length) 0

/-- Line 150: `row = list(r) + [""] * (max_cols - len(r))` — right-pad a row
with empty strings up to `n` cells. -/
def pad_row (r : List String) (n : Nat) : List String :=
  r ++ List.replicate (n - r.length) ""

/-- Lines 150–158: pad a surviving row and apply the activation rule to each
cell.  The program stores `1`/`0`; we model the cell state as `Bool`. -/
def convert_row (r : List String) (n : Nat) : List Bool :=
  (pad_row r n).map cell_active

/-- `load_csv` (lines 134–161), with the file dialog and `csv.reader` out of
scope: from the parsed rows of strings, drop blank rows, fail if none remain,
otherwise pad every row to `max_cols` and convert cells to booleans. -/
def load_csv (raw : List (List String)) : Except LoadError (List (List Bool)) :=
  let rows := surviving_rows raw
  if rows.isEmpty then .error .emptyInput
  else .ok (rows.map fun r => convert_row r (max_cols rows))

/-- The effect of `load_csv` on `self.data`: the assignment
`self.data = data` (line 161) happens only on success; the error path
(lines 141–143) returns without touching `self.data`. -/
def load_csv_state (prev : List (List Bool)) (raw : List (List String)) :
    List (List Bool) :=
  match load_csv raw with
  | .error _ => prev
  | .ok g => g

/-- `reset_grid` (lines 122–124): a fresh 10×20 all-inactive grid. -/
def reset_grid : List (List Bool) :=
  List.replicate 10 (List.replicate 20 false)

/-! ## LayoutEngine: `_grid_dimensions` (lines 194–203) -/

/-- The tuple `_grid_dimensions` returns: `(rows, cols, width, height)`. -/
structure GridDims where
  rows : Nat
  cols : Nat
  width : ℤ
  height : ℤ
deriving Repr, DecidableEq

/-- `_grid_dimensions` (lines 194–203): `(0, 0, 0, 0)` when `self.data` is
empty; otherwise `rows = len(self.data)`, `cols = len(self.data[0])`,
`width = int(cols * spacing + spacing)`, `height = int(rows * spacing +
spacing)`. -/
def grid_dimensions (data : List (List Bool)) (style : StyleConfig) : GridDims :=
  if data.isEmpty then ⟨0, 0, 0, 0⟩
  else
    let rows := data.length
    let cols := (data.headD []).length
    let spacing := style.spacing
    ⟨rows, cols, pyInt (cols * spacing + spacing), pyInt (rows * spacing + spacing)⟩

/-- One rendered dot: a filled circle with no stroke.  `draw_grid` draws the
oval with bounding box `(cx - r, cy - r, cx + r, cy + r)`; we record the
equivalent center/radius form shared by all three backends. -/
structure Dot where
  centerX : ℚ
  centerY : ℚ
  radius : ℚ
  color : Color
deriving Repr, DecidableEq, Inhabited

/-! ## The three backends.  Each of `draw_grid` (lines 218–226),
`_export_raster` (lines 287–296) and `_export_svg` (lines 317–324) contains
its own copy of the nested `for i / for j` loop computing
`cx = spacing/2 + j*spacing`, `cy = spacing/2 + i*spacing` and the color
choice; each is embedded separately below so their agreement is a theorem
about duplicated code, not a definition. -/

/-- The dot list emitted by the preview loop in `draw_grid` (lines 218–226),
iterating over the `rows`/`cols` returned by `_grid_dimensions`. -/
def preview_dots (data : List (List Bool)) (style : StyleConfig) : List Dot :=
  let rows := (grid_dimensions data style).rows
  let cols := (grid_dimensions data style).cols
  (List.range rows).flatMap fun i : Nat => (List.range cols).map fun j : Nat =>
    { centerX := style.spacing / 2 + (j : ℚ) * style.spacing
      centerY := style.spacing / 2 + (i : ℚ) * style.spacing
      radius := style.radius
      color := if (data.getD i []).getD j false then style.active_color
               else style.inactive_color }

/-- The state `draw_grid` leaves the Tk canvas in when it draws: size
`(width, height)`, background `bg_color`, and the drawn items in order. -/
structure CanvasRender where
  width : ℤ
  height : ℤ
  background : Color
  items : List Dot
deriving Repr, DecidableEq

/-- `draw_grid` (lines 205–226): clears the canvas, computes
`_grid_dimensions`, and returns early (drawing nothing and not resizing,
hence `none`) when `rows == 0 or cols == 0`; otherwise resizes the canvas to
`(width, height)`, sets the background, and draws every dot. -/
def draw_grid (data : List (List Bool)) (style : StyleConfig) :
    Option CanvasRender :=
  let d := grid_dimensions data style
  if d.rows = 0 ∨ d.cols = 0 then none
  else some ⟨d.width, d.height, style.bg_color, preview_dots data style⟩

/-- The raster image `_export_raster` builds: `Image.new("RGB",
(width, height), bg)` then one filled ellipse per cell. -/
structure RasterImage where
  width : ℤ
  height : ℤ
  background : Color
  shapes : List Dot
deriving Repr, DecidableEq

/-- `_export_raster` (lines 275–299): recomputes `rows = len(self.data)`,
`cols = len(self.data[0])` and re-runs the drawing loop onto a fresh image of
the `(width, height)` passed in by `export_image`.  (`self.data[0]` is only
evaluated on the guarded path where the data is non-empty; `headD []` models
that reachable case.) -/
def export_raster (data : List (List Bool)) (style : StyleConfig)
    (width height : ℤ) : RasterImage :=
  let rows := data.length
  let cols := (data.headD []).length
  ⟨width, height, style.bg_color,
    (List.range rows).flatMap fun i : Nat => (List.range cols).map fun j : Nat =>
      { centerX := style.spacing / 2 + (j : ℚ) * style.spacing
        centerY := style.spacing / 2 + (i : ℚ) * style.spacing
        radius := style.radius
        color := if (data.getD i []).getD j false then style.active_color
                 else style.inactive_color }⟩

/-- The SVG document `_export_svg` writes: `width`/`height` attributes and
viewBox `0 0 width height`, a full-canvas background `<rect>`, then one
`<circle cx cy r fill>` per cell in loop order.  The circles are recorded as
`Dot`s (their exact attribute values); string formatting is encoding, not
geometry. -/
structure SvgDoc where
  width : ℤ
  height : ℤ
  background : Color
  circles : List Dot
deriving Repr, DecidableEq

/-- `_export_svg` (lines 301–327): recomputes `rows`/`cols` from `self.data`
and re-runs the drawing loop, appending one circle element per cell after
the background rect. -/
def export_svg (data : List (List Bool)) (style : StyleConfig)
    (width height : ℤ) : SvgDoc :=
  let rows := data.length
  let cols := (data.headD []).length
  ⟨width, height, style.bg_color,
    (List.range rows).flatMap fun i : Nat => (List.range cols).map fun j : Nat =>
      { centerX := style.spacing / 2 + (j : ℚ) * style.spacing
        centerY := style.spacing / 2 + (i : ℚ) * style.spacing
        radius := style.radius
        color := if (data.getD i []).getD j false then style.active_color
                 else style.inactive_color }⟩

/-- The spec's `DotLayout` abstraction: the canvas size computed by
`_grid_dimensions` together with the row-major dot list the drawing loop
emits (empty when `rows == 0 or cols == 0`, since both loop ranges are
then empty). -/
structure DotLayout where
  canvasWidth : ℤ
  canvasHeight : ℤ
  dots : List Dot
deriving Repr, DecidableEq

/-- The geometry shared by all backends, packaged as the spec's `DotLayout`. -/
def layout (data : List (List Bool)) (style : StyleConfig) : DotLayout :=
  let d := grid_dimensions data style
  ⟨d.width, d.height, preview_dots data style⟩

/-! ## `export_image` (lines 230–273) -/

/-- The export failure the app reports before any encoding: "No data to
export." (lines 231–238). -/
inductive ExportError where
  | noData
deriving Repr, DecidableEq

/-- The export format selector values. -/
inductive ExportFormat where
  | png
  | jpeg
  | svg
deriving Repr, DecidableEq

/-- The encoded artifact an export produces. -/
inductive ExportResult where
  | raster : RasterImage → ExportResult
  | vector : SvgDoc → ExportResult
deriving Repr, DecidableEq

/-- `export_image` (lines 230–273), with the save dialog and path
normalization out of scope: error out if `self.data` is empty or if
`_grid_dimensions` reports `rows == 0 or cols == 0`; otherwise hand the
computed `(width, height)` to the chosen encoder. -/
def export_image (data : List (List Bool)) (style : StyleConfig)
    (fmt : ExportFormat) : Except ExportError ExportResult :=
  if data.isEmpty then .error .noData
  else
    let d := grid_dimensions data style
    if d.rows = 0 ∨ d.cols = 0 then .error .noData
    else
      match fmt with
      | .png => .ok (.raster (export_raster data style d.width d.height))
      | .jpeg => .ok (.raster (export_raster data style d.width d.height))
      | .svg => .ok (.vector (export_svg data style d.width d.height))

/-- The file-system effect of the exporters' write step.  `_export_svg`
(lines 329–330) runs `open(path, "w")` — which truncates the destination to
empty immediately — and then `f.write(svg_str)`; `img.save(path)` likewise
opens the destination for writing before encoding into it.  `prev` is the
destination's prior content (`none` if no file existed), `succeeds` abstracts
whether the write raises an ordinary exception.  On failure the destination
is left holding the truncated (empty) content, not `prev`. -/
def write_file (prev : Option String) (content : String) (succeeds : Bool) :
    Option String :=
  if succeeds then some content else some ""

/-! ## Lemmas about ingestion -/

theorem foldl_max_le_init (l : List (List String)) (acc : Nat) :
    acc ≤ l.foldl (fun m r => max m r.length) acc := by
  induction l generalizing acc with
  | nil => simp
  | cons x t ih => exact le_trans (le_max_left _ _) (ih _)

theorem length_le_foldl_max {r : List String} {l : List (List String)}
    (h : r ∈ l) (acc : Nat) :
    r.length ≤ l.foldl (fun m x => max m x.length) acc := by
  induction l generalizing acc with
  | nil => cases h
  | cons x t ih =>
    cases h with
    | head => exact le_trans (le_max_right _ _) (foldl_max_le_init t _)
    | tail _ hm => exact ih hm _

/-- Every surviving row fits inside `max_cols`. -/
theorem length_le_max_cols {r : List String} {rows : List (List String)}
    (h : r ∈ rows) : r.length ≤ max_cols rows :=
  length_le_foldl_max h 0

theorem foldl_max_attained (l : List (List String)) (acc : Nat) :
    (∃ x ∈ l, l.foldl (fun m r => max m r.length) acc = x.length) ∨
      l.foldl (fun m r => max m r.length) acc = acc := by
  induction l generalizing acc with
  | nil => right; rfl
  | cons x t ih =>
    rcases ih (max acc x.length) with ⟨y, hy, he⟩ | he
    · exact Or.inl ⟨y, List.mem_cons_of_mem _ hy, he⟩
    · by_cases hc : acc ≤ x.length
      · exact Or.inl ⟨x, List.mem_cons_self _ _, by
          simpa [max_eq_right hc] using he⟩
      · right
        simpa [max_eq_left (le_of_not_le hc)] using he

/-- For a non-empty row list, `max_cols` is attained by some row, so the
fold-based model agrees with Python's `max` over the lengths. -/
theorem max_cols_attained {rows : List (List String)} (h : rows ≠ []) :
    ∃ r ∈ rows, max_cols rows = r.length := by
  rcases foldl_max_attained rows 0 with h1 | h1
  · exact h1
  · obtain ⟨r0, t, rfl⟩ := List.exists_cons_of_ne_nil h
    refine ⟨r0, List.mem_cons_self _ _, ?_⟩
    have h2 := length_le_max_cols (List.mem_cons_self r0 t)
    have h3 : max_cols (r0 :: t) = 0 := h1
    omega

theorem pad_row_length {r : List String} {n : Nat} (h : r.length ≤ n) :
    (pad_row r n).length = n := by
  simp only [pad_row, List.length_append, List.length_replicate]
  omega

theorem convert_row_length {r : List String} {n : Nat} (h : r.length ≤ n) :
    (convert_row r n).length = n := by
  simp [convert_row, pad_row_length h]

/-- Success characterization of `load_csv`. -/
theorem load_csv_ok_iff {raw : List (List String)} {g : List (List Bool)} :
    load_csv raw = .ok g ↔
      surviving_rows raw ≠ [] ∧
        g = (surviving_rows raw).map
          (fun r => convert_row r (max_cols (surviving_rows raw))) := by
  unfold load_csv
  by_cases h : (surviving_rows raw).isEmpty
  · simp only [h, if_true]
    constructor
    · intro hc; cases hc
    · rintro ⟨hne, -⟩
      exact absurd (List.isEmpty_iff.mp h) hne
  · simp only [h, if_false]
    constructor
    · intro hc
      cases hc
      exact ⟨fun he => h (by simp [he]), rfl⟩
    · rintro ⟨-, rfl⟩
      rfl

/-- The padded-and-converted row, read through `getD`: at every index `j`
(in range or not), the produced cell is the activation rule applied to the
raw cell read with default `""`. -/
theorem convert_row_getD (r : List String) (n j : Nat) :
    (convert_row r n).getD j false = cell_active (r.getD j "") := by
  unfold convert_row pad_row
  rw [List.getD_eq_getElem?_getD, List.getElem?_map, List.getD_eq_getElem?_getD]
  by_cases hj : j < r.length
  · rw [List.getElem?_append, if_pos hj]
    rw [List.getElem?_eq_getElem hj]
    rfl
  · push_neg at hj
    rw [List.getElem?_append, if_neg (by omega)]
    rw [List.getElem?_eq_none hj]
    by_cases hn : j - r.length < n - r.length
    · rw [List.getElem?_replicate_of_lt hn]
      rfl
    · push_neg at hn
      rw [List.getElem?_eq_none (by simpa using hn)]
      have hca : cell_active "" = false := by decide
      simp [hca]

/-- A row surviving the blank-row filter has a cell that strips to a
non-empty string; in particular it is non-empty. -/
theorem surviving_rows_mem {raw : List (List String)} {r : List String}
    (h : r ∈ surviving_rows raw) :
    r ∈ raw ∧ ∃ cell ∈ r, strip cell ≠ "" := by
  have h' := List.mem_filter.mp h
  refine ⟨h'.1, ?_⟩
  obtain ⟨cell, hc, hs⟩ := List.any_eq_true.mp h'.2
  exact ⟨cell, hc, by simpa using hs⟩

theorem grid_dimensions_of_ne_nil {data : List (List Bool)} (h : data ≠ [])
    (style : StyleConfig) :
    grid_dimensions data style =
      ⟨data.length, (data.headD []).length,
       pyInt ((data.headD []).length * style.spacing + style.spacing),
       pyInt (data.length * style.spacing + style.spacing)⟩ := by
  unfold grid_dimensions
  simp [h]

/-! ## Claims about ingestion -/

/-- C1: for every raw input cell, ingestion marks the cell active (`true`)
iff its whitespace-stripped value is non-empty and not the literal `"0"`;
padded cells (read with default `""`) come out `false`. -/
theorem load_csv_cell_rule (raw : List (List String)) (g : List (List Bool))
    (h : load_csv raw = .ok g) (i : Nat) (hi : i < g.length) (j : Nat) :
    ((g.get ⟨i, hi⟩).getD j false = true ↔
      (strip (((surviving_rows raw).getD i []).getD j "") ≠ "" ∧
       strip (((surviving_rows raw).getD i []).getD j "") ≠ "0")) := by
  obtain ⟨hne, rfl⟩ := load_csv_ok_iff.mp h
  have hi' : i < (surviving_rows raw).length := by
    simpa using hi
  have hget : ((surviving_rows raw).map
      (fun r => convert_row r (max_cols (surviving_rows raw)))).get ⟨i, hi⟩ =
      convert_row ((surviving_rows raw).get ⟨i, hi'⟩)
        (max_cols (surviving_rows raw)) := by
    simp
  rw [hget]
  rw [convert_row_getD]
  have hgd : ((surviving_rows raw).getD i []) =
      (surviving_rows raw).get ⟨i, hi'⟩ := by
    rw [List.getD_eq_getElem?_getD, List.getElem?_eq_getElem hi']
    rfl
  rw [hgd]
  simp [cell_active, Bool.and_eq_true, bne_iff_ne]

/-- C1 witness: a concrete ingestion exercising `"0"`, `""`, `"00"`, `"x"`,
`"1"` and a whitespace-only cell; the hypotheses are discharged by
evaluation. -/
theorem load_csv_cell_rule_witness :
    (([[false, false, true, true, true, false]] : List (List Bool)).get
        ⟨0, by decide⟩).getD 2 false = true ↔
      (strip (((surviving_rows [["0", "", "00", "x", "1", "  "]]).getD 0
        []).getD 2 "") ≠ "" ∧
       strip (((surviving_rows [["0", "", "00", "x", "1", "  "]]).getD 0
        []).getD 2 "") ≠ "0") :=
  load_csv_cell_rule [["0", "", "00", "x", "1", "  "]]
    [[false, false, true, true, true, false]] rfl 0 (by decide) 2

/-- C2: a successful ingestion is rectangular: one output row per surviving
input row; every output row has length `max_cols`, which bounds every
surviving row's cell count and is attained by one of them (so it is the
maximum cell count over the surviving rows). -/
theorem load_csv_rectangular (raw : List (List String)) (g : List (List Bool))
    (h : load_csv raw = .ok g) :
    g.length = (surviving_rows raw).length ∧
    (∀ row ∈ g, row.length = max_cols (surviving_rows raw)) ∧
    (∀ r ∈ surviving_rows raw, r.length ≤ max_cols (surviving_rows raw)) ∧
    (∃ r ∈ surviving_rows raw, max_cols (surviving_rows raw) = r.length) := by
  obtain ⟨hne, rfl⟩ := load_csv_ok_iff.mp h
  refine ⟨by simp, ?_, fun r hr => length_le_max_cols hr,
    max_cols_attained hne⟩
  intro row hrow
  obtain ⟨r, hr, rfl⟩ := List.mem_map.mp hrow
  exact convert_row_length (length_le_max_cols hr)

/-- C2 witness: a jagged two-row input (1 cell, then 3 cells) padded to a
2×3 rectangle. -/
theorem load_csv_rectangular_witness :
    ([[true, false, false], [false, true, false]] : List (List Bool)).length =
      (surviving_rows [["1"], ["0", "x", ""]]).length ∧
    (∀ row ∈ ([[true, false, false], [false, true, false]] :
        List (List Bool)),
      row.length = max_cols (surviving_rows [["1"], ["0", "x", ""]])) ∧
    (∀ r ∈ surviving_rows [["1"], ["0", "x", ""]],
      r.length ≤ max_cols (surviving_rows [["1"], ["0", "x", ""]])) ∧
    (∃ r ∈ surviving_rows [["1"], ["0", "x", ""]],
      max_cols (surviving_rows [["1"], ["0", "x", ""]]) = r.length) :=
  load_csv_rectangular [["1"], ["0", "x", ""]]
    [[true, false, false], [false, true, false]] rfl

/-- C7: ingestion fails with the empty-input error exactly when no row
survives the blank-row filter, and on that failure the previously held grid
is returned unchanged. -/
theorem load_csv_empty_input (raw : List (List String))
    (prev : List (List Bool)) :
    (load_csv raw = .error .emptyInput ↔ surviving_rows raw = []) ∧
    (load_csv raw = .error .emptyInput → load_csv_state prev raw = prev) := by
  have key : load_csv raw = .error .emptyInput ↔
      (surviving_rows raw).isEmpty = true := by
    unfold load_csv
    by_cases he : (surviving_rows raw).isEmpty <;> simp [he]
  refine ⟨key.trans List.isEmpty_iff, fun h => ?_⟩
  simp [load_csv_state, h]

/-- C7 witness: an input whose rows are all blank (whitespace-only or
empty) fails, leaving the previous grid in place. -/
theorem load_csv_empty_input_witness :
    (load_csv [["", "  "], []] = .error .emptyInput ↔
      surviving_rows [["", "  "], []] = []) ∧
    (load_csv [["", "  "], []] = .error .emptyInput →
      load_csv_state [[true]] [["", "  "], []] = [[true]]) :=
  load_csv_empty_input [["", "  "], []] [[true]]

/-- C10: a grid produced by a successful ingestion has at least one row and
at least one column (every surviving row holds a non-blank cell, so
`max_cols ≥ 1`); consequently neither the preview's early return nor the
export guard's zero-dimension error path can fire on it. -/
theorem load_csv_produces_nonempty_grid (raw : List (List String))
    (g : List (List Bool)) (h : load_csv raw = .ok g) (style : StyleConfig) :
    0 < g.length ∧ 1 ≤ max_cols (surviving_rows raw) ∧
    (∀ row ∈ g, 0 < row.length) ∧ 0 < (g.headD []).length ∧
    (grid_dimensions g style).rows ≠ 0 ∧
    (grid_dimensions g style).cols ≠ 0 ∧
    draw_grid g style ≠ none ∧
    (∀ fmt, ∃ res, export_image g style fmt = .ok res) := by
  obtain ⟨hne, hg⟩ := load_csv_ok_iff.mp h
  obtain ⟨r0, t, hrt⟩ := List.exists_cons_of_ne_nil hne
  have hr0mem : r0 ∈ surviving_rows raw := by
    rw [hrt]; exact List.mem_cons_self _ _
  obtain ⟨-, cell, hcell, -⟩ := surviving_rows_mem hr0mem
  have hr0ne : 1 ≤ r0.length := by
    cases r0 with
    | nil => cases hcell
    | cons a b => simp
  have hmax : 1 ≤ max_cols (surviving_rows raw) :=
    le_trans hr0ne (length_le_max_cols hr0mem)
  have hglen : 0 < g.length := by
    rw [hg, hrt]; simp
  have hrowlen : ∀ row ∈ g, row.length = max_cols (surviving_rows raw) :=
    (load_csv_rectangular raw g h).2.1
  have hrowpos : ∀ row ∈ g, 0 < row.length := fun row hrow => by
    rw [hrowlen row hrow]; exact hmax
  have hgne : g ≠ [] := List.ne_nil_of_length_pos hglen
  have hhead : 0 < (g.headD []).length := by
    have hmem : g.headD [] ∈ g := by
      rw [hg, hrt]; simp
    exact hrowpos _ hmem
  have hdims := grid_dimensions_of_ne_nil hgne style
  have hrows0 : (grid_dimensions g style).rows ≠ 0 := by
    rw [hdims]
    show g.length ≠ 0
    omega
  have hcols0 : (grid_dimensions g style).cols ≠ 0 := by
    rw [hdims]
    show (g.headD []).length ≠ 0
    omega
  have hcond : ¬((grid_dimensions g style).rows = 0 ∨
      (grid_dimensions g style).cols = 0) := by
    push_neg
    exact ⟨hrows0, hcols0⟩
  refine ⟨hglen, hmax, hrowpos, hhead, hrows0, hcols0, ?_, ?_⟩
  · simp only [draw_grid, if_neg hcond]
    exact Option.some_ne_none _
  · intro fmt
    have hie : g.isEmpty = false := by simp [hgne]
    cases fmt <;>
      simp [export_image, hie, if_neg hcond]

/-- C10 witness: a one-cell ingestion (`[["0"]]` survives: `"0"` is
non-blank) yields a 1×1 grid that takes none of the empty paths. -/
theorem load_csv_produces_nonempty_grid_witness :
    0 < ([[false]] : List (List Bool)).length ∧
    1 ≤ max_cols (surviving_rows [["0"]]) ∧
    (∀ row ∈ ([[false]] : List (List Bool)), 0 < row.length) ∧
    0 < (([[false]] : List (List Bool)).headD []).length ∧
    (grid_dimensions [[false]] defaultStyle).rows ≠ 0 ∧
    (grid_dimensions [[false]] defaultStyle).cols ≠ 0 ∧
    draw_grid [[false]] defaultStyle ≠ none ∧
    (∀ fmt, ∃ res, export_image [[false]] defaultStyle fmt = .ok res) :=
  load_csv_produces_nonempty_grid [["0"]] [[false]] rfl defaultStyle

/-! ## Lemmas about the geometry -/

theorem pyInt_eq_floor {q : ℚ} (h : 0 ≤ q) : pyInt q = ⌊q⌋ := by
  unfold pyInt
  rw [Rat.floor_def]
  rw [Int.tdiv_eq_ediv (by exact_mod_cast Rat.num_nonneg.mpr h) (by positivity)]

theorem pyInt_intCast (n : ℤ) : pyInt ((n : ℚ)) = n := by
  unfold pyInt
  rw [Rat.num_intCast, Rat.den_intCast]
  simp

theorem flatMap_range_length {α : Type} (f : Nat → List α) (n c : Nat)
    (hf : ∀ i, i < n → (f i).length = c) :
    ((List.range n).flatMap f).length = n * c := by
  induction n with
  | zero => simp
  | succ m ih =>
    rw [List.range_succ, List.flatMap_append]
    simp only [List.length_append]
    rw [ih (fun i hi => hf i (Nat.lt_succ_of_lt hi))]
    have hm : ([m].flatMap f).length = c := by
      simp [hf m (Nat.lt_succ_self m)]
    rw [hm]
    ring

theorem flatMap_range_getD {α : Type} (f : Nat → List α) (n c : Nat) (d : α)
    (hf : ∀ i, i < n → (f i).length = c)
    (i j : Nat) (hi : i < n) (hj : j < c) :
    ((List.range n).flatMap f).getD (i * c + j) d = (f i).getD j d := by
  induction n with
  | zero => omega
  | succ m ih =>
    rw [List.range_succ, List.flatMap_append]
    have hlen : ((List.range m).flatMap f).length = m * c :=
      flatMap_range_length f m c (fun k hk => hf k (Nat.lt_succ_of_lt hk))
    by_cases him : i < m
    · have hexp : (i + 1) * c = i * c + c := by ring
      have h2 : (i + 1) * c ≤ m * c := Nat.mul_le_mul_right c him
      have hidx : i * c + j < ((List.range m).flatMap f).length := by
        rw [hlen]
        omega
      rw [List.getD_append _ _ _ _ hidx]
      exact ih (fun k hk => hf k (Nat.lt_succ_of_lt hk)) him
    · obtain rfl : i = m := by omega
      have hge : ((List.range i).flatMap f).length ≤ i * c + j := by
        rw [hlen]
        omega
      rw [List.getD_append_right _ _ _ _ hge]
      rw [hlen]
      have hsub : i * c + j - i * c = j := by omega
      rw [hsub]
      simp

theorem map_range_getD {α : Type} (g : Nat → α) (c j : Nat) (d : α)
    (hj : j < c) :
    ((List.range c).map g).getD j d = g j := by
  rw [List.getD_eq_getElem?_getD, List.getElem?_map, List.getElem?_range hj]
  rfl

/-- On a non-empty grid, the preview loop ranges over `len(self.data)` rows
and `len(self.data[0])` columns. -/
theorem preview_dots_of_ne_nil {data : List (List Bool)} (hne : data ≠ [])
    (style : StyleConfig) :
    preview_dots data style =
      (List.range data.length).flatMap fun i : Nat =>
        (List.range (data.headD []).length).map fun j : Nat =>
          { centerX := style.spacing / 2 + (j : ℚ) * style.spacing
            centerY := style.spacing / 2 + (i : ℚ) * style.spacing
            radius := style.radius
            color := if (data.getD i []).getD j false then style.active_color
                     else style.inactive_color } := by
  simp only [preview_dots, grid_dimensions_of_ne_nil hne style]

/-! ## Claims about layout geometry -/

/-- C3: for a non-empty rectangular grid the layout's dot sequence has
`rows * cols` entries in row-major order, and the dot at index
`i*cols + j` has center `(spacing/2 + j*spacing, spacing/2 + i*spacing)`,
the style's radius, and the active color iff cell `(i, j)` is true. -/
theorem layout_dot_law (data : List (List Bool)) (style : StyleConfig)
    (hr : 0 < data.length) (hc : 0 < (data.headD []).length)
    (hrect : ∀ row ∈ data, row.length = (data.headD []).length)
    (i j : Nat) (hi : i < data.length) (hj : j < (data.headD []).length) :
    (layout data style).dots.length =
        data.length * (data.headD []).length ∧
    (layout data style).dots.getD (i * (data.headD []).length + j) default =
      { centerX := style.spacing / 2 + (j : ℚ) * style.spacing
        centerY := style.spacing / 2 + (i : ℚ) * style.spacing
        radius := style.radius
        color := if (data.getD i []).getD j false then style.active_color
                 else style.inactive_color } := by
  have hne : data ≠ [] := List.ne_nil_of_length_pos hr
  have hdots : (layout data style).dots = preview_dots data style := by
    simp [layout]
  rw [hdots, preview_dots_of_ne_nil hne style]
  have hflen : ∀ k, k < data.length →
      ((List.range (data.headD []).length).map fun j : Nat =>
        ({ centerX := style.spacing / 2 + (j : ℚ) * style.spacing
           centerY := style.spacing / 2 + (k : ℚ) * style.spacing
           radius := style.radius
           color := if (data.getD k []).getD j false then style.active_color
                    else style.inactive_color } : Dot)).length =
        (data.headD []).length := by
    intro k hk
    simp
  constructor
  · exact flatMap_range_length _ _ _ hflen
  · rw [flatMap_range_getD _ _ _ _ hflen i j hi hj]
    exact map_range_getD _ _ _ _ hj

/-- C3 witness: the 2×2 grid `[[true,false],[false,true]]` at the default
style, checked at cell `(1, 0)` (dot index 2). -/
theorem layout_dot_law_witness :
    (layout [[true, false], [false, true]] defaultStyle).dots.length =
        ([[true, false], [false, true]] : List (List Bool)).length *
          (([[true, false], [false, true]] : List (List Bool)).headD
            []).length ∧
    (layout [[true, false], [false, true]] defaultStyle).dots.getD
        (1 * (([[true, false], [false, true]] :
          List (List Bool)).headD []).length + 0) default =
      { centerX := defaultStyle.spacing / 2 + ((0 : Nat) : ℚ) *
          defaultStyle.spacing
        centerY := defaultStyle.spacing / 2 + ((1 : Nat) : ℚ) *
          defaultStyle.spacing
        radius := defaultStyle.radius
        color := if (([[true, false], [false, true]] :
            List (List Bool)).getD 1 []).getD 0 false then
            defaultStyle.active_color
          else defaultStyle.inactive_color } :=
  layout_dot_law [[true, false], [false, true]] defaultStyle (by decide)
    (by decide) (by decide) 1 0 (by decide) (by decide)

/-- C4: for a non-empty grid and positive spacing, the computed canvas size
is `⌊cols*s + s⌋ = ⌊(cols+1)*s⌋` by `⌊rows*s + s⌋ = ⌊(rows+1)*s⌋`, and it
does not depend on the dot radius (any style with the same spacing yields
the same dimensions). -/
theorem canvas_size_law (data : List (List Bool)) (style : StyleConfig)
    (hr : 0 < data.length) (hc : 0 < (data.headD []).length)
    (hs : 0 < style.spacing) :
    (grid_dimensions data style).width =
        ⌊((data.headD []).length : ℚ) * style.spacing + style.spacing⌋ ∧
    (grid_dimensions data style).width =
        ⌊(((data.headD []).length : ℚ) + 1) * style.spacing⌋ ∧
    (grid_dimensions data style).height =
        ⌊(data.length : ℚ) * style.spacing + style.spacing⌋ ∧
    (grid_dimensions data style).height =
        ⌊((data.length : ℚ) + 1) * style.spacing⌋ ∧
    (∀ style' : StyleConfig, style'.spacing = style.spacing →
      grid_dimensions data style' = grid_dimensions data style) := by
  have hne : data ≠ [] := List.ne_nil_of_length_pos hr
  have hdims := grid_dimensions_of_ne_nil hne style
  have hnn : ∀ m : Nat, (0 : ℚ) ≤ (m : ℚ) * style.spacing + style.spacing := by
    intro m
    have h1 : (0 : ℚ) ≤ (m : ℚ) := by positivity
    nlinarith
  have hw : (grid_dimensions data style).width =
      ⌊((data.headD []).length : ℚ) * style.spacing + style.spacing⌋ := by
    simp only [hdims]
    exact pyInt_eq_floor (hnn _)
  have hh : (grid_dimensions data style).height =
      ⌊(data.length : ℚ) * style.spacing + style.spacing⌋ := by
    simp only [hdims]
    exact pyInt_eq_floor (hnn _)
  have harith : ∀ m : Nat, ((m : ℚ) + 1) * style.spacing =
      (m : ℚ) * style.spacing + style.spacing := by
    intro m
    ring
  refine ⟨hw, by rw [hw, harith], hh, by rw [hh, harith], ?_⟩
  intro style' hsp
  rw [grid_dimensions_of_ne_nil hne style', hdims, hsp]

/-- C4 witness: the 2×2 grid at the default spacing 18; the hypotheses are
discharged by evaluation. -/
theorem canvas_size_law_witness :
    (grid_dimensions [[true, false], [false, true]] defaultStyle).width =
        ⌊((([[true, false], [false, true]] : List (List Bool)).headD
          []).length : ℚ) * defaultStyle.spacing + defaultStyle.spacing⌋ ∧
    (grid_dimensions [[true, false], [false, true]] defaultStyle).width =
        ⌊(((([[true, false], [false, true]] : List (List Bool)).headD
          []).length : ℚ) + 1) * defaultStyle.spacing⌋ ∧
    (grid_dimensions [[true, false], [false, true]] defaultStyle).height =
        ⌊(([[true, false], [false, true]] : List (List Bool)).length : ℚ) *
          defaultStyle.spacing + defaultStyle.spacing⌋ ∧
    (grid_dimensions [[true, false], [false, true]] defaultStyle).height =
        ⌊((([[true, false], [false, true]] : List (List Bool)).length : ℚ) +
          1) * defaultStyle.spacing⌋ ∧
    (∀ style' : StyleConfig, style'.spacing = defaultStyle.spacing →
      grid_dimensions [[true, false], [false, true]] style' =
        grid_dimensions [[true, false], [false, true]] defaultStyle) :=
  canvas_size_law [[true, false], [false, true]] defaultStyle (by decide)
    (by decide) (by decide)

/-- On the 1-row, 0-column grid `[[]]` (a grid with `cols == 0`), the
computed canvas width is `int(spacing)`, not 0. -/
theorem grid_dimensions_row_no_cols (style : StyleConfig) :
    grid_dimensions [[]] style =
      ⟨1, 0, pyInt ((0 : ℚ) * style.spacing + style.spacing),
        pyInt ((1 : ℚ) * style.spacing + style.spacing)⟩ := by
  have h := grid_dimensions_of_ne_nil
    (show ([[]] : List (List Bool)) ≠ [] by simp) style
  simpa using h

/-- C5 counterexample: for the grid `[[]]` (rows = 1, cols = 0) at the
default spacing 18, the layout's dot sequence is empty but its canvas
dimensions are `18 × 36`, refuting the claimed `canvasWidth = canvasHeight
= 0` for every grid with `rows == 0 or cols == 0`. -/
theorem layout_zero_cols_counterexample :
    (layout [[]] defaultStyle).dots = [] ∧
    (layout [[]] defaultStyle).canvasWidth = 18 ∧
    (layout [[]] defaultStyle).canvasHeight = 36 ∧
    ¬((layout [[]] defaultStyle).canvasWidth = 0 ∧
      (layout [[]] defaultStyle).canvasHeight = 0) := by
  have hdims := grid_dimensions_row_no_cols defaultStyle
  have hw : ((0 : ℚ) * defaultStyle.spacing + defaultStyle.spacing) =
      ((18 : ℤ) : ℚ) := by
    norm_num [defaultStyle]
  have hh : ((1 : ℚ) * defaultStyle.spacing + defaultStyle.spacing) =
      ((36 : ℤ) : ℚ) := by
    norm_num [defaultStyle]
  have hdots : (layout [[]] defaultStyle).dots = [] := by
    simp [layout, preview_dots, hdims]
  have hwidth : (layout [[]] defaultStyle).canvasWidth = 18 := by
    simp only [layout, hdims]
    rw [hw, pyInt_intCast]
  have hheight : (layout [[]] defaultStyle).canvasHeight = 36 := by
    simp only [layout, hdims]
    rw [hh, pyInt_intCast]
  refine ⟨hdots, hwidth, hheight, ?_⟩
  rintro ⟨h0, -⟩
  rw [hwidth] at h0
  cases h0

/-- C5 amended: when `rows == 0 or cols == 0` the layout draws nothing (its
dot sequence is empty, and the preview returns without resizing) and no
failure occurs; the canvas dimensions are 0 only in the `rows == 0` case,
while for `cols == 0` with `rows ≥ 1` they are `int(s)` by
`int(rows*s + s)`. -/
theorem layout_zero_dims (data : List (List Bool)) (style : StyleConfig)
    (h : data.length = 0 ∨ (data.headD []).length = 0) :
    (layout data style).dots = [] ∧
    draw_grid data style = none ∧
    (data.length = 0 → layout data style = ⟨0, 0, []⟩) ∧
    (0 < data.length →
      (layout data style).canvasWidth = pyInt (0 * style.spacing + style.spacing) ∧
      (layout data style).canvasHeight =
        pyInt ((data.length : ℚ) * style.spacing + style.spacing)) := by
  by_cases hne : data = []
  · subst hne
    refine ⟨?_, ?_, ?_, ?_⟩
    · simp [layout, preview_dots, grid_dimensions]
    · simp [draw_grid, grid_dimensions]
    · intro _
      simp [layout, preview_dots, grid_dimensions]
    · intro h0
      cases h0
  · have hlen : data.length ≠ 0 := by simp [hne]
    have hc : (data.headD []).length = 0 := by
      rcases h with h | h
      · exact absurd h hlen
      · exact h
    have hdims := grid_dimensions_of_ne_nil hne style
    have hc0 : data.head?.getD [] = [] := by
      cases data with
      | nil => rfl
      | cons a t =>
        have ha : a.length = 0 := by simpa using hc
        simpa using List.length_eq_zero.mp ha
    have hdots : (layout data style).dots = [] := by
      simp [layout, preview_dots, hdims, hc, hc0]
    have hcond : (grid_dimensions data style).rows = 0 ∨
        (grid_dimensions data style).cols = 0 := by
      rw [hdims]
      right
      exact hc
    refine ⟨hdots, by simp [draw_grid, hcond], fun h0 => absurd h0 hlen,
      fun _ => ⟨?_, ?_⟩⟩
    · simp only [layout, hdims, hc]
      norm_num
    · simp only [layout, hdims]

/-- C5 amended witness: the grid `[[]]` takes the empty-dot path with
non-zero computed dimensions; the hypothesis is discharged by evaluation. -/
theorem layout_zero_dims_witness :
    (layout [[]] defaultStyle).dots = [] ∧
    draw_grid [[]] defaultStyle = none ∧
    (([[]] : List (List Bool)).length = 0 →
      layout [[]] defaultStyle = ⟨0, 0, []⟩) ∧
    (0 < ([[]] : List (List Bool)).length →
      (layout [[]] defaultStyle).canvasWidth =
        pyInt (0 * defaultStyle.spacing + defaultStyle.spacing) ∧
      (layout [[]] defaultStyle).canvasHeight =
        pyInt ((([[]] : List (List Bool)).length : ℚ) * defaultStyle.spacing +
          defaultStyle.spacing)) :=
  layout_zero_dims [[]] defaultStyle (by decide)

/-! ## Claims about the backends and export -/

/-- C6: on any grid the three backends agree on geometry: the preview, the
raster exporter and the vector exporter emit the same filled circles (same
centers, radius, fill colors) in the same row-major order, on a canvas of
the same computed size with the same background; none derives different
geometry.  (The exporters are only invoked on non-empty grids, which the
hypotheses reflect.) -/
theorem backends_geometry_agree (data : List (List Bool))
    (style : StyleConfig) (hr : 0 < data.length)
    (hc : 0 < (data.headD []).length) :
    draw_grid data style = some
      { width := (grid_dimensions data style).width
        height := (grid_dimensions data style).height
        background := style.bg_color
        items := preview_dots data style } ∧
    export_raster data style (grid_dimensions data style).width
        (grid_dimensions data style).height =
      { width := (grid_dimensions data style).width
        height := (grid_dimensions data style).height
        background := style.bg_color
        shapes := preview_dots data style } ∧
    export_svg data style (grid_dimensions data style).width
        (grid_dimensions data style).height =
      { width := (grid_dimensions data style).width
        height := (grid_dimensions data style).height
        background := style.bg_color
        circles := preview_dots data style } := by
  have hne : data ≠ [] := List.ne_nil_of_length_pos hr
  have hdims := grid_dimensions_of_ne_nil hne style
  have hcond : ¬((grid_dimensions data style).rows = 0 ∨
      (grid_dimensions data style).cols = 0) := by
    push_neg
    constructor
    · rw [hdims]
      show data.length ≠ 0
      omega
    · rw [hdims]
      show (data.headD []).length ≠ 0
      omega
  have hpd := preview_dots_of_ne_nil hne style
  refine ⟨by simp [draw_grid, hcond], ?_, ?_⟩
  · simp only [export_raster, hpd]
  · simp only [export_svg, hpd]

/-- C6 witness: the three backends agree on the 1×1 grid `[[true]]` at the
default style. -/
theorem backends_geometry_agree_witness :
    draw_grid [[true]] defaultStyle = some
      { width := (grid_dimensions [[true]] defaultStyle).width
        height := (grid_dimensions [[true]] defaultStyle).height
        background := defaultStyle.bg_color
        items := preview_dots [[true]] defaultStyle } ∧
    export_raster [[true]] defaultStyle
        (grid_dimensions [[true]] defaultStyle).width
        (grid_dimensions [[true]] defaultStyle).height =
      { width := (grid_dimensions [[true]] defaultStyle).width
        height := (grid_dimensions [[true]] defaultStyle).height
        background := defaultStyle.bg_color
        shapes := preview_dots [[true]] defaultStyle } ∧
    export_svg [[true]] defaultStyle
        (grid_dimensions [[true]] defaultStyle).width
        (grid_dimensions [[true]] defaultStyle).height =
      { width := (grid_dimensions [[true]] defaultStyle).width
        height := (grid_dimensions [[true]] defaultStyle).height
        background := defaultStyle.bg_color
        circles := preview_dots [[true]] defaultStyle } :=
  backends_geometry_agree [[true]] defaultStyle (by decide) (by decide)

/-- C8 counterexample: on the grid `[[]]` (one row, zero columns) with the
default spacing 18, export fails with the no-data error even though the
computed canvas dimensions are `18 × 36`, both non-zero — so "export fails
exactly when `canvasWidth == 0 or canvasHeight == 0`" is false: the guard
tests `rows == 0 or cols == 0`, not the canvas size. -/
theorem export_guard_counterexample :
    export_image [[]] defaultStyle .png = .error .noData ∧
    (grid_dimensions [[]] defaultStyle).width = 18 ∧
    (grid_dimensions [[]] defaultStyle).height = 36 ∧
    ¬((grid_dimensions [[]] defaultStyle).width = 0 ∨
      (grid_dimensions [[]] defaultStyle).height = 0) := by
  have hdims := grid_dimensions_row_no_cols defaultStyle
  have hw : ((0 : ℚ) * defaultStyle.spacing + defaultStyle.spacing) =
      ((18 : ℤ) : ℚ) := by
    norm_num [defaultStyle]
  have hh : ((1 : ℚ) * defaultStyle.spacing + defaultStyle.spacing) =
      ((36 : ℤ) : ℚ) := by
    norm_num [defaultStyle]
  have hwidth : (grid_dimensions [[]] defaultStyle).width = 18 := by
    simp only [hdims]
    rw [hw, pyInt_intCast]
  have hheight : (grid_dimensions [[]] defaultStyle).height = 36 := by
    simp only [hdims]
    rw [hh, pyInt_intCast]
  have hexp : export_image [[]] defaultStyle .png = .error .noData := by
    have hcond : (grid_dimensions [[]] defaultStyle).rows = 0 ∨
        (grid_dimensions [[]] defaultStyle).cols = 0 := by
      rw [hdims]
      right
      rfl
    simp [export_image, hcond]
  refine ⟨hexp, hwidth, hheight, ?_⟩
  rintro (h0 | h0)
  · rw [hwidth] at h0
    cases h0
  · rw [hheight] at h0
    cases h0

/-- C8 amended: export fails with the no-data error exactly when the grid
has zero rows or zero columns (the guard tests `rows == 0 or cols == 0`,
not the canvas size); whenever rows ≥ 1 and cols ≥ 1 it proceeds to encode
and returns a result — even if a computed canvas dimension happens to be
zero. -/
theorem export_guard_law (data : List (List Bool)) (style : StyleConfig)
    (fmt : ExportFormat) :
    (export_image data style fmt = .error .noData ↔
      (data.length = 0 ∨ (data.headD []).length = 0)) ∧
    (0 < data.length → 0 < (data.headD []).length →
      ∃ res, export_image data style fmt = .ok res) := by
  by_cases hne : data = []
  · subst hne
    constructor
    · simp [export_image]
    · intro h0 _
      cases h0
  · have hlen : data.length ≠ 0 := by simp [hne]
    have hie : data.isEmpty = false := by simp [hne]
    have hdims := grid_dimensions_of_ne_nil hne style
    by_cases hc : (data.headD []).length = 0
    · have hcond : (grid_dimensions data style).rows = 0 ∨
          (grid_dimensions data style).cols = 0 := by
        rw [hdims]
        right
        exact hc
      have herr : export_image data style fmt = .error .noData := by
        cases fmt <;> simp [export_image, hie, hcond]
      constructor
      · exact iff_of_true herr (Or.inr hc)
      · intro _ h2
        omega
    · have hcond : ¬((grid_dimensions data style).rows = 0 ∨
          (grid_dimensions data style).cols = 0) := by
        push_neg
        constructor
        · rw [hdims]
          show data.length ≠ 0
          omega
        · rw [hdims]
          show (data.headD []).length ≠ 0
          omega
      have hok : ∃ res, export_image data style fmt = .ok res := by
        cases fmt <;> simp [export_image, hie, hcond]
      obtain ⟨res, hres⟩ := hok
      constructor
      · refine iff_of_false ?_ ?_
        · rw [hres]
          intro hcontra
          cases hcontra
        · rintro (h0 | h0)
          · exact hlen h0
          · exact hc h0
      · intro _ _
        exact ⟨res, hres⟩

/-- C8 amended witness: a 1×1 grid exports successfully; the grid `[[]]`
(checked in the counterexample) errors. -/
theorem export_guard_law_witness :
    (export_image [[true]] defaultStyle .svg = .error .noData ↔
      (([[true]] : List (List Bool)).length = 0 ∨
        (([[true]] : List (List Bool)).headD []).length = 0)) ∧
    (0 < ([[true]] : List (List Bool)).length →
      0 < (([[true]] : List (List Bool)).headD []).length →
      ∃ res, export_image [[true]] defaultStyle .svg = .ok res) :=
  export_guard_law [[true]] defaultStyle .svg

/-- C9 counterexample: an export whose write step raises after the
destination has been opened leaves the destination truncated to the empty
file, not the previous content: `open(path, "w")` truncates in place before
`f.write` runs, so a prior valid file is destroyed, refuting "the
destination file is left untouched". -/
theorem export_write_truncates_counterexample :
    write_file (some "previous-valid-export") "<svg></svg>" false =
      some "" ∧
    write_file (some "previous-valid-export") "<svg></svg>" false ≠
      some "previous-valid-export" := by
  constructor
  · rfl
  · decide

/-- C9 amended: a failed export that never opens the destination (the
no-data guard, a cancelled dialog) leaves it untouched, but once the
exporter has opened the destination, a write that raises an ordinary
exception leaves the truncated empty file in place of any previous
content — the code writes in place with no temporary file. -/
theorem export_write_behavior (prev : Option String) (content : String) :
    write_file prev content true = some content ∧
    write_file prev content false = some "" ∧
    (∀ old : String, old ≠ "" →
      write_file (some old) content false ≠ some old) := by
  refine ⟨rfl, rfl, fun old hne hcontra => ?_⟩
  have h0 : some "" = some old := hcontra
  have h1 : "" = old := by
    injection h0
  exact hne h1.symm

/-- C9 amended witness. -/
theorem export_write_behavior_witness :
    write_file (some "old.svg-contents") "<svg></svg>" true =
      some "<svg></svg>" ∧
    write_file (some "old.svg-contents") "<svg></svg>" false = some "" ∧
    (∀ old : String, old ≠ "" →
      write_file (some old) "<svg></svg>" false ≠ some old) :=
  export_write_behavior (some "old.svg-contents") "<svg></svg>"

end DotGrid
